import Mathlib

/-!
# Shallow embedding of `dspy/retrieve/MyScaleRM.py`

The adapter under verification is `MyScaleRM`, a retrieval module that
picks an embedding source (remote OpenAI API or a locally loaded
transformer model), builds a nearest-neighbour SQL string, runs it through
a database client and reshapes the returned rows into passages.

Modelling choices, each tied to the source:

* Scalar embedding components are opaque data in this adapter: the Python
  code performs no arithmetic on them, it only moves them around and
  interpolates them into a SQL string.  We therefore carry them as `Int`
  (`Emb := List Int`); only the list structure matters to any claim.
* External systems (the OpenAI embeddings endpoint, the local transformer
  forward pass, `AutoModel.from_pretrained` / `AutoTokenizer.from_pretrained`,
  the `clickhouse_connect` client and the `torch` device probes) are an
  oracle `World` supplying their responses; a call to one of them is
  recorded as an `Effect` in an effect trace, so that claims about "no
  network / database call happens" are about the trace.
* Python exceptions become `Except Err` / `Option Err` results.  A Python
  method that mutates `self` before raising keeps those mutations on the
  object; such functions return the (possibly partially updated) state
  alongside the error, exactly as `setup_local_model` does in the source.
* Python truthiness of an `Optional[str]` (`if local_embed_model:`) is
  `pyTruthyStr`: `None` and the empty string are falsy.  Truthiness of a
  list (`if not metadata_columns:`) is non-emptiness.
* `CacheMemory.cache` only memoizes `_get_embeddings` on its argument; the
  cached call returns the same value as the uncached one, so
  `get_embeddings` is the identity wrapper plus an `embedRequest` trace
  event marking that the embedding subsystem was invoked.
-/

/-- An embedding vector: the adapter treats its float components as opaque
data (no arithmetic is performed on them), carried here as `Int`. -/
abbrev Emb := List Int

/-- A database result row, as produced by `result.named_results()`:
a mapping from metadata column name to the stored (stringified) value. -/
abbrev Row := String → String

/-- Compute devices probed by `setup_local_model`. -/
inductive Device
  | cuda
  | mps
  | cpu
deriving DecidableEq, Repr

/-- Errors raised by the adapter: Python `ValueError` and
`ModuleNotFoundError`, each with its message. -/
inductive Err
  | valueError (msg : String)
  | moduleNotFound (msg : String)
deriving DecidableEq, Repr

/-- Externally visible calls made by the adapter, recorded as a trace:
writing an environment variable, loading a pretrained model or tokenizer,
entering the embedding subsystem (`get_embeddings`), hitting the remote
embeddings endpoint, running the local model, issuing a database query. -/
inductive Effect
  | setEnv (name value : String)
  | loadModel (name : String)
  | loadTokenizer (name : String)
  | embedRequest (queries : List String)
  | remoteEmbed (queries : List String)
  | localEmbed (queries : List String)
  | dbQuery (sql : String)
deriving DecidableEq, Repr

/-- The behaviour of all external systems the adapter talks to. -/
structure World where
  /-- `import torch; from transformers import ...` succeeds. -/
  torchAvailable : Bool
  /-- `AutoModel.from_pretrained name`: `some handle` or raising (`none`). -/
  modelLoads : String → Option String
  /-- `AutoTokenizer.from_pretrained name`: `some handle` or raising. -/
  tokenizerLoads : String → Option String
  /-- `torch.cuda.is_available()`. -/
  cudaAvailable : Bool
  /-- `torch.backends.mps.is_available()`. -/
  mpsAvailable : Bool
  /-- `openai.embeddings.create(model, input=queries).data`, one embedding
  object per input string as the endpoint returns them. -/
  openaiData : List String → List Emb
  /-- The local model's mean-pooled last hidden state for a tokenized
  batch: `output.last_hidden_state.mean(dim=1).cpu().numpy().tolist()`,
  one pooled vector per batch item. -/
  localPooled : List String → List Emb
  /-- `client.query(sql).named_results()`: the rows the database returns
  for a SQL string, already in ascending-distance order. -/
  dbNamedResults : String → List Row

/-- Python truthiness of an `Optional[str]`: `None` and `""` are falsy. -/
def pyTruthyStr : Option String → Bool
  | none => false
  | some s => !(s = "")

/-- The state of a `MyScaleRM` object: the configuration fields assigned in
`__init__` plus the lazily populated local-model state
(`_local_embed_model`, `_local_tokenizer`, `device`, and the eval-mode flag
that `self._local_embed_model.eval()` switches on). -/
structure MyScaleRM where
  client : Nat
  database : String
  table : String
  metadata_columns : List String
  vector_column : String
  k : Nat
  openai_api_key : Option String
  model : Option String
  use_local_model : Bool
  local_embed_model : Option String
  local_tokenizer : Option String
  device : Option Device
  local_eval_mode : Bool
deriving DecidableEq, Repr

/-- `MyScaleRM.setup_local_model`: import the inference libraries, load the
pretrained model and tokenizer (the `try` block assigns
`_local_embed_model`, then `_local_tokenizer`, then sets
`use_local_model = True`; an exception part-way keeps the assignments
already made and surfaces as `ValueError`), then pick a device in priority
order cuda, mps, cpu and move the model to it.  Returns the trace of
external calls, the updated object state, and the raised error if any. -/
def setup_local_model (s : MyScaleRM) (model_name : String) (w : World) :
    List Effect × MyScaleRM × Option Err :=
  if !w.torchAvailable then
    ([], s, some (Err.moduleNotFound
      "You need to install PyTorch and Hugging Face's transformers library to use a local embedding model."))
  else
    match w.modelLoads model_name with
    | none =>
      ([Effect.loadModel model_name], s,
       some (Err.valueError "Failed to load model or tokenizer."))
    | some mh =>
      let s1 := { s with local_embed_model := some mh }
      match w.tokenizerLoads model_name with
      | none =>
        ([Effect.loadModel model_name, Effect.loadTokenizer model_name], s1,
         some (Err.valueError "Failed to load model or tokenizer."))
      | some th =>
        let s2 := { s1 with local_tokenizer := some th, use_local_model := true }
        let dev : Device :=
          if w.cudaAvailable then Device.cuda
          else if w.mpsAvailable then Device.mps
          else Device.cpu
        ([Effect.loadModel model_name, Effect.loadTokenizer model_name],
         { s2 with device := some dev }, none)

/-- `MyScaleRM.__init__`: store the configuration (raising `ValueError`
when `metadata_columns` is empty, before anything else is attempted), set
`use_local_model = False`, then either set up the local model (when
`local_embed_model` is truthy) or write the API key into the
`OPENAI_API_KEY` environment variable (when `openai_api_key` is truthy). -/
def init (client : Nat) (table : String) (database : String)
    (metadata_columns : List String) (vector_column : String) (k : Nat)
    (openai_api_key : Option String) (openai_model : Option String)
    (local_embed_model : Option String) (w : World) :
    List Effect × Except Err MyScaleRM :=
  if metadata_columns = [] then
    ([], Except.error (Err.valueError "metadata_columns is required"))
  else
    let s : MyScaleRM := {
      client := client
      database := database
      table := table
      metadata_columns := metadata_columns
      vector_column := vector_column
      k := k
      openai_api_key := openai_api_key
      model := openai_model
      use_local_model := false
      local_embed_model := none
      local_tokenizer := none
      device := none
      local_eval_mode := false }
    if pyTruthyStr local_embed_model then
      let r := setup_local_model s (local_embed_model.getD "") w
      match r.2.2 with
      | some e => (r.1, Except.error e)
      | none => (r.1, Except.ok r.2.1)
    else if pyTruthyStr openai_api_key then
      ([Effect.setEnv "OPENAI_API_KEY" (openai_api_key.getD "")], Except.ok s)
    else
      ([], Except.ok s)

/-- `MyScaleRM._get_embeddings_from_openai`: one call to
`openai.embeddings.create(model, input=queries)`, after which the code
returns `response.data[0].embedding` — the embedding of the FIRST query
only, a single flat vector (the `[0]` indexing is modelled with `getD 0 []`;
the endpoint returns one entry per input string). -/
def _get_embeddings_from_openai (s : MyScaleRM) (w : World)
    (queries : List String) : List Effect × Emb :=
  let _ := s.model
  ([Effect.remoteEmbed queries], (w.openaiData queries).getD 0 [])

/-- `MyScaleRM._get_embedding_from_local_model`: puts the model in eval
mode (`self._local_embed_model.eval()`, the one mutation of local-model
state), tokenizes the input as a batch, runs a no-grad forward pass,
mean-pools over tokens and returns `tolist()[0]` — the pooled vector of
the FIRST batch item only. -/
def _get_embedding_from_local_model (s : MyScaleRM) (w : World)
    (queries : List String) : List Effect × MyScaleRM × Emb :=
  let s1 := { s with local_eval_mode := true }
  ([Effect.localEmbed queries], s1, (w.localPooled queries).getD 0 [])

/-- `MyScaleRM._get_embeddings`: route on configuration.
`if self.openai_api_key and self.model:` → remote;
`elif self.use_local_model:` → local;
else raise `ValueError`. -/
def _get_embeddings (s : MyScaleRM) (w : World) (queries : List String) :
    List Effect × MyScaleRM × Except Err Emb :=
  if pyTruthyStr s.openai_api_key && pyTruthyStr s.model then
    let r := _get_embeddings_from_openai s w queries
    (r.1, s, Except.ok r.2)
  else if s.use_local_model then
    let r := _get_embedding_from_local_model s w queries
    (r.1, r.2.1, Except.ok r.2.2)
  else
    ([], s, Except.error
      (Err.valueError "No valid method for obtaining embeddings is configured."))

/-- `MyScaleRM.get_embeddings`: the public entry of the embedding
subsystem.  With caching on it returns
`CacheMemory.cache(self._get_embeddings)(queries)`, a memoization of the
same function, so the value is that of `_get_embeddings` either way; the
`embedRequest` trace event records that the subsystem was invoked. -/
def get_embeddings (s : MyScaleRM) (w : World) (queries : List String) :
    List Effect × MyScaleRM × Except Err Emb :=
  let r := _get_embeddings s w queries
  (Effect.embedRequest queries :: r.1, r.2)

/-- One passage as handed to `dspy.Prediction`:
`dotdict(\x7b"long_text": passage\x7d)`. -/
structure Passage where
  long_text : String
deriving DecidableEq, Repr

/-- The `dspy.Prediction` result container. -/
structure Prediction where
  passages : List Passage
deriving DecidableEq, Repr

/-- The row formatting inside `MyScaleRM.forward`: with exactly one
configured metadata column the raw column value is appended unchanged;
otherwise one `f"\x7bcolumn\x7d: \x7brow[column]\x7d"` line per configured
column, joined with newlines. -/
def formatRow (cols : List String) (row : Row) : String :=
  if cols.length = 1 then row (cols.getD 0 "")
  else String.intercalate "\n" (cols.map fun c => c ++ ": " ++ row c)

/-- The result-shaping tail of `MyScaleRM.forward`: format each returned
row in order, then wrap each formatted passage. -/
def formatResults (cols : List String) (rows : List Row) : List Passage :=
  (rows.map (formatRow cols)).map fun p => { long_text := p }

/-- The SQL f-string built in `MyScaleRM.forward` (the embedding list is
interpolated via its string form, `embStr`). -/
def buildSql (s : MyScaleRM) (columns_string : String) (embStr : String)
    (k : Nat) : String :=
  "\n        SELECT " ++ columns_string ++ ",\n        distance(" ++
    s.vector_column ++ ", " ++ embStr ++ ") as dist FROM " ++ s.database ++
    "." ++ s.table ++ " ORDER BY dist LIMIT " ++ toString k ++ "\n        "

/-- `MyScaleRM.forward`: raise `ValueError` when the query is `None`
(before anything else happens); otherwise resolve `k`, obtain the
embedding for the singleton batch `[user_query]`, build and issue the SQL
query, and shape the returned rows into a `Prediction`.  Returns the trace
of external calls, the final object state, and the result or raised
error. -/
def forward (s : MyScaleRM) (w : World) (user_query : Option String)
    (kArg : Option Nat) : List Effect × MyScaleRM × Except Err Prediction :=
  match user_query with
  | none => ([], s, Except.error (Err.valueError "Query is required"))
  | some q =>
    let k := kArg.getD s.k
    match get_embeddings s w [q] with
    | (effs, s1, Except.error e) => (effs, s1, Except.error e)
    | (effs, s1, Except.ok embeddings) =>
      let columns_string := String.intercalate ", " s.metadata_columns
      let sql := buildSql s columns_string (toString embeddings) k
      let rows := w.dbNamedResults sql
      (effs ++ [Effect.dbQuery sql], s1,
       Except.ok { passages := formatResults s.metadata_columns rows })

/-! ## Concrete fixtures used by counterexample and witness theorems -/

/-- A remote-configured adapter state (API key and OpenAI model set). -/
def rmRemote : MyScaleRM := {
  client := 0
  database := "default"
  table := "documents"
  metadata_columns := ["text"]
  vector_column := "vector"
  k := 3
  openai_api_key := some "sk-test"
  model := some "text-embedding-3-small"
  use_local_model := false
  local_embed_model := none
  local_tokenizer := none
  device := none
  local_eval_mode := false }

/-- A locally-configured adapter state (local model loaded, no remote). -/
def rmLocal : MyScaleRM := { rmRemote with
  openai_api_key := none
  model := none
  use_local_model := true
  local_embed_model := some "bert-base"
  local_tokenizer := some "bert-base"
  device := some Device.cpu }

/-- An adapter state with both remote credentials and a loaded local model. -/
def rmBoth : MyScaleRM := { rmLocal with
  openai_api_key := some "sk-test"
  model := some "text-embedding-3-small" }

/-- An adapter state with no embedding source configured. -/
def rmNoSource : MyScaleRM := { rmRemote with
  openai_api_key := none
  model := none }

/-- A world whose embedding endpoints return one distinct vector per input
string for the batch `["q0", "q1"]`, and whose database returns two rows. -/
def wTwo : World := {
  torchAvailable := true
  modelLoads := fun n => some n
  tokenizerLoads := fun n => some n
  cudaAvailable := false
  mpsAvailable := false
  openaiData := fun qs => if qs = ["q0", "q1"] then [[10, 11], [20, 21]] else [[1, 2]]
  localPooled := fun qs => if qs = ["q0", "q1"] then [[10, 11], [20, 21]] else [[3, 4]]
  dbNamedResults := fun _ => [fun _ => "p1", fun _ => "p2"] }

/-! ## Claims -/

/-- Claim C1: the spec's contract says `get_embeddings` / `_get_embeddings`
return one embedding per input string on both paths, and the docstrings of
`_get_embeddings` and `_get_embeddings_from_openai` say the same ("A list
of embeddings, each corresponding to a query in the input list").  The
code instead returns `response.data[0].embedding` on the remote path and
`tolist()[0]` on the local path: for the two-query batch `["q0", "q1"]`,
with the endpoint answering `[[10, 11], [20, 21]]` (one vector per query),
both paths return only the first vector `[10, 11]` — a single flat vector,
not a list of two embeddings. -/
theorem c1_code_returns_first_embedding_only :
    wTwo.openaiData ["q0", "q1"] = [[10, 11], [20, 21]] ∧
    (_get_embeddings_from_openai rmRemote wTwo ["q0", "q1"]).2 = [10, 11] ∧
    wTwo.localPooled ["q0", "q1"] = [[10, 11], [20, 21]] ∧
    (_get_embedding_from_local_model rmLocal wTwo ["q0", "q1"]).2.2 = [10, 11] ∧
    (_get_embeddings rmRemote wTwo ["q0", "q1"]).2.2 = Except.ok [10, 11] ∧
    (_get_embeddings rmLocal wTwo ["q0", "q1"]).2.2 = Except.ok [10, 11] := by
  refine ⟨rfl, rfl, rfl, rfl, rfl, rfl⟩

/-- Claim C2: `_get_embeddings` routes to the remote client when both the
API key and the OpenAI model name are truthy (regardless of
`use_local_model`); otherwise to the local path when `use_local_model` is
set; and raises the configuration `ValueError` exactly when neither
holds. -/
theorem c2_get_embeddings_routing (s : MyScaleRM) (w : World)
    (qs : List String) :
    ((pyTruthyStr s.openai_api_key && pyTruthyStr s.model) = true →
      (_get_embeddings s w qs).1 = [Effect.remoteEmbed qs] ∧
      (_get_embeddings s w qs).2.2 =
        Except.ok (_get_embeddings_from_openai s w qs).2) ∧
    ((pyTruthyStr s.openai_api_key && pyTruthyStr s.model) = false →
      s.use_local_model = true →
      (_get_embeddings s w qs).1 = [Effect.localEmbed qs] ∧
      (_get_embeddings s w qs).2.2 =
        Except.ok (_get_embedding_from_local_model s w qs).2.2) ∧
    ((_get_embeddings s w qs).2.2 =
        Except.error (Err.valueError
          "No valid method for obtaining embeddings is configured.") ↔
      (pyTruthyStr s.openai_api_key && pyTruthyStr s.model) = false ∧
      s.use_local_model = false) := by
  cases hb : (pyTruthyStr s.openai_api_key && pyTruthyStr s.model) <;>
    cases hl : s.use_local_model <;>
      simp [_get_embeddings, _get_embeddings_from_openai,
        _get_embedding_from_local_model, hb, hl]

/-- Witness for C2: the three routing cases at concrete states — remote
wins even with a local model loaded, the local path is taken without
remote credentials, and the configuration error is raised when neither
source is configured. -/
theorem c2_get_embeddings_routing_witness :
    (_get_embeddings rmBoth wTwo ["q"]).1 = [Effect.remoteEmbed ["q"]] ∧
    (_get_embeddings rmLocal wTwo ["q"]).1 = [Effect.localEmbed ["q"]] ∧
    (_get_embeddings rmNoSource wTwo ["q"]).2.2 =
      Except.error (Err.valueError
        "No valid method for obtaining embeddings is configured.") :=
  ⟨((c2_get_embeddings_routing rmBoth wTwo ["q"]).1 (by decide)).1,
   ((c2_get_embeddings_routing rmLocal wTwo ["q"]).2.1 (by decide) (by decide)).1,
   (c2_get_embeddings_routing rmNoSource wTwo ["q"]).2.2.mpr
     ⟨by decide, by decide⟩⟩

/-- Claim C3: with exactly one configured metadata column the formatted
passage is the raw column value unchanged; with several columns it is the
newline-join of the "column: value" lines, one per configured column, in
the configured order. -/
theorem c3_format_row (row : Row) :
    (∀ c : String, formatRow [c] row = row c) ∧
    (∀ cols : List String, 2 ≤ cols.length →
      formatRow cols row =
        String.intercalate "\n" (cols.map fun c => c ++ ": " ++ row c)) := by
  constructor
  · intro c
    simp [formatRow]
  · intro cols h
    have hne : cols.length ≠ 1 := by omega
    simp [formatRow, hne]

/-- A concrete row mapping column "a" to "1" and column "b" to "2". -/
def rowAB : Row := fun c => if c = "a" then "1" else if c = "b" then "2" else ""

/-- Witness for C3: for the row (a ↦ 1, b ↦ 2), a single configured
column gives the raw value and the pair of columns gives the joined
block. -/
theorem c3_format_row_witness :
    formatRow ["a"] rowAB = "1" ∧ formatRow ["a", "b"] rowAB = "a: 1\nb: 2" := by
  constructor
  · rw [(c3_format_row rowAB).1 "a"]
    rfl
  · rw [(c3_format_row rowAB).2 ["a", "b"] (by decide)]
    rfl

/-- Claim C5: calling `forward` with query `None` raises the
`ValueError "Query is required"` and the effect trace is empty — no
`get_embeddings` request, no remote or local embedding call, and no
database query is issued. -/
theorem c5_none_query_rejected_before_any_call (s : MyScaleRM) (w : World)
    (kArg : Option Nat) :
    (forward s w none kArg).1 = [] ∧
    (forward s w none kArg).2.2 =
      Except.error (Err.valueError "Query is required") := by
  exact ⟨rfl, rfl⟩

/-- Every effect of `setup_local_model` is a model or tokenizer load: it
never writes an environment variable and never queries the database. -/
lemma setup_local_model_effects (s : MyScaleRM) (mn : String) (w : World) :
    ∀ e ∈ (setup_local_model s mn w).1,
      e = Effect.loadModel mn ∨ e = Effect.loadTokenizer mn := by
  unfold setup_local_model
  cases w.torchAvailable <;> cases hm : w.modelLoads mn <;>
    cases ht : w.tokenizerLoads mn <;> simp [hm, ht]

/-- `setup_local_model` assigns only local-model state: every
configuration field of the resulting object equals the input's. -/
lemma setup_local_model_config (s : MyScaleRM) (mn : String) (w : World) :
    (setup_local_model s mn w).2.1.client = s.client ∧
    (setup_local_model s mn w).2.1.database = s.database ∧
    (setup_local_model s mn w).2.1.table = s.table ∧
    (setup_local_model s mn w).2.1.metadata_columns = s.metadata_columns ∧
    (setup_local_model s mn w).2.1.vector_column = s.vector_column ∧
    (setup_local_model s mn w).2.1.k = s.k ∧
    (setup_local_model s mn w).2.1.openai_api_key = s.openai_api_key ∧
    (setup_local_model s mn w).2.1.model = s.model := by
  unfold setup_local_model
  cases w.torchAvailable <;> cases hm : w.modelLoads mn <;>
    cases ht : w.tokenizerLoads mn <;> simp [hm, ht]

/-- Claim C6: `__init__` with an empty metadata-column list raises
`ValueError "metadata_columns is required"` with an empty effect trace (no
model load, no environment write — the check comes before anything else);
and any successfully constructed object stores the supplied non-empty
metadata-column list unchanged. -/
theorem c6_metadata_columns_checked_first (client : Nat)
    (table database vector_column : String) (k : Nat)
    (key mdl lem : Option String) (w : World) :
    (init client table database [] vector_column k key mdl lem w =
      ([], Except.error (Err.valueError "metadata_columns is required"))) ∧
    (∀ (cols : List String) (effs : List Effect) (s : MyScaleRM),
      init client table database cols vector_column k key mdl lem w =
        (effs, Except.ok s) →
      s.metadata_columns = cols) := by
  constructor
  · rfl
  · intro cols effs s h
    unfold init at h
    by_cases hc : cols = []
    · simp [hc] at h
    · rw [if_neg hc] at h
      by_cases hl : pyTruthyStr lem = true
      · rw [if_pos hl] at h
        cases hr : (setup_local_model
            { client := client, database := database, table := table,
              metadata_columns := cols, vector_column := vector_column,
              k := k, openai_api_key := key, model := mdl,
              use_local_model := false, local_embed_model := none,
              local_tokenizer := none, device := none,
              local_eval_mode := false } (lem.getD "") w).2.2 with
        | some e =>
          simp only [hr] at h
          simp at h
        | none =>
          simp only [hr] at h
          simp only [Prod.mk.injEq, Except.ok.injEq] at h
          rw [← h.2]
          exact (setup_local_model_config _ _ w).2.2.2.1
      · rw [if_neg hl] at h
        by_cases hk : pyTruthyStr key = true
        · rw [if_pos hk] at h
          simp only [Prod.mk.injEq, Except.ok.injEq] at h
          rw [← h.2]
        · rw [if_neg hk] at h
          simp only [Prod.mk.injEq, Except.ok.injEq] at h
          rw [← h.2]

/-- Witness for C6: the empty list is rejected with an empty effect trace,
and the constructed `rmRemote` state stores the supplied column list. -/
theorem c6_metadata_columns_checked_first_witness :
    init 0 "documents" "default" [] "vector" 3 (some "sk-test")
        (some "text-embedding-3-small") none wTwo =
      ([], Except.error (Err.valueError "metadata_columns is required")) ∧
    rmRemote.metadata_columns = ["text"] :=
  ⟨(c6_metadata_columns_checked_first 0 "documents" "default" "vector" 3
      (some "sk-test") (some "text-embedding-3-small") none wTwo).1,
   (c6_metadata_columns_checked_first 0 "documents" "default" "vector" 3
      (some "sk-test") (some "text-embedding-3-small") none wTwo).2
      ["text"] [Effect.setEnv "OPENAI_API_KEY" "sk-test"] rmRemote rfl⟩

/-- `_get_embeddings` either leaves the object untouched or only switches
the local model into eval mode. -/
lemma _get_embeddings_state (s : MyScaleRM) (w : World) (qs : List String) :
    (_get_embeddings s w qs).2.1 = s ∨
    (_get_embeddings s w qs).2.1 = { s with local_eval_mode := true } := by
  unfold _get_embeddings _get_embedding_from_local_model
  cases hb : (pyTruthyStr s.openai_api_key && pyTruthyStr s.model) <;>
    cases hl : s.use_local_model <;>
      simp [hb, hl, _get_embeddings_from_openai]

/-- Claim C7: `forward` (on any query, succeeding or raising) leaves every
configuration field set at construction unchanged; only the local-model
eval flag can differ on the resulting state. -/
theorem c7_forward_preserves_config (s : MyScaleRM) (w : World)
    (q : Option String) (kArg : Option Nat) :
    (forward s w q kArg).2.1.client = s.client ∧
    (forward s w q kArg).2.1.database = s.database ∧
    (forward s w q kArg).2.1.table = s.table ∧
    (forward s w q kArg).2.1.metadata_columns = s.metadata_columns ∧
    (forward s w q kArg).2.1.vector_column = s.vector_column ∧
    (forward s w q kArg).2.1.k = s.k ∧
    (forward s w q kArg).2.1.openai_api_key = s.openai_api_key ∧
    (forward s w q kArg).2.1.model = s.model ∧
    (forward s w q kArg).2.1.use_local_model = s.use_local_model := by
  have hstate : (forward s w q kArg).2.1 = s ∨
      (forward s w q kArg).2.1 = { s with local_eval_mode := true } := by
    cases q with
    | none => exact Or.inl rfl
    | some q =>
      have h := _get_embeddings_state s w [q]
      rcases hge : _get_embeddings s w [q] with ⟨effs, s1, ex⟩
      rw [hge] at h
      simp only [forward, get_embeddings, hge]
      cases ex <;> simpa using h
  rcases hstate with h | h <;> rw [h] <;> simp

/-- Claim C4: the result shaping produces exactly one passage per returned
row — same length, and the i-th passage is the formatting of the i-th row,
so the database's ascending-distance order is preserved — and every
successful `forward` result is exactly this shaping of the rows the
database returned. -/
theorem c4_one_passage_per_row_in_order (cols : List String)
    (rows : List Row) :
    (formatResults cols rows).length = rows.length ∧
    (∀ i : Nat, (formatResults cols rows)[i]? =
      (rows[i]?).map fun r => Passage.mk (formatRow cols r)) ∧
    (∀ (s : MyScaleRM) (w : World) (q : String) (kArg : Option Nat)
        (effs : List Effect) (s1 : MyScaleRM) (p : Prediction),
      forward s w (some q) kArg = (effs, s1, Except.ok p) →
      ∃ sql, p = { passages :=
        formatResults s.metadata_columns (w.dbNamedResults sql) }) := by
  refine ⟨by simp [formatResults], ?_, ?_⟩
  · intro i
    simp only [formatResults, List.map_map, List.getElem?_map]
    cases rows[i]? <;> rfl
  · intro s w q kArg effs s1 p h
    rcases hge : _get_embeddings s w [q] with ⟨e2, s2, ex⟩
    simp only [forward, get_embeddings, hge] at h
    cases ex with
    | error e => simp at h
    | ok emb =>
      simp only [Prod.mk.injEq, Except.ok.injEq] at h
      exact ⟨_, h.2.2.symm⟩

/-- The first database row fixture: every column stores "p1". -/
def rowP1 : Row := fun _ => "p1"

/-- The second database row fixture: every column stores "p2". -/
def rowP2 : Row := fun _ => "p2"

/-- A world whose database returns the two named row fixtures. -/
def wDb : World := { wTwo with dbNamedResults := fun _ => [rowP1, rowP2] }

/-- Witness for C4: two returned rows give two passages in order, the
second passage is the formatting of the second row, and a concrete
successful `forward` call returns exactly the shaped rows. -/
theorem c4_one_passage_per_row_in_order_witness :
    (formatResults ["text"] [rowP1, rowP2]).length =
      ([rowP1, rowP2] : List Row).length ∧
    (formatResults ["text"] [rowP1, rowP2])[1]? =
      (([rowP1, rowP2] : List Row)[1]?).map
        (fun r => Passage.mk (formatRow ["text"] r)) ∧
    ∃ sql, ({ passages := formatResults ["text"] [rowP1, rowP2] } :
        Prediction) =
      { passages := formatResults rmRemote.metadata_columns
          (wDb.dbNamedResults sql) } := by
  refine ⟨(c4_one_passage_per_row_in_order ["text"] [rowP1, rowP2]).1,
    (c4_one_passage_per_row_in_order ["text"] [rowP1, rowP2]).2.1 1, ?_⟩
  obtain ⟨sql, hp⟩ := (c4_one_passage_per_row_in_order ["text"]
      [rowP1, rowP2]).2.2 rmRemote wDb "q" none _ _ _ rfl
  exact ⟨sql, hp⟩

/-- Claim C8: starting from an object whose `use_local_model` is `False`
(as `__init__` sets it before calling `setup_local_model`), whenever
`setup_local_model` raises — missing libraries, model load failure or
tokenizer load failure — `use_local_model` is still `False` on the
resulting object; and whenever the resulting object has
`use_local_model = True`, the call completed without error and both the
model and the tokenizer handles are populated. -/
theorem c8_use_local_model_only_after_full_load (s : MyScaleRM)
    (mn : String) (w : World) (h : s.use_local_model = false) :
    ((setup_local_model s mn w).2.2.isSome = true →
      (setup_local_model s mn w).2.1.use_local_model = false) ∧
    ((setup_local_model s mn w).2.1.use_local_model = true →
      (setup_local_model s mn w).2.2 = none ∧
      (setup_local_model s mn w).2.1.local_embed_model.isSome = true ∧
      (setup_local_model s mn w).2.1.local_tokenizer.isSome = true) := by
  unfold setup_local_model
  cases w.torchAvailable <;> cases hm : w.modelLoads mn <;>
    cases ht : w.tokenizerLoads mn <;> simp [hm, ht, h]

/-- A world in which the tokenizer load raises while the model load
succeeds. -/
def wTokFail : World := { wTwo with tokenizerLoads := fun _ => none }

/-- Witness for C8: with a failing tokenizer the raised call leaves
`use_local_model` off; with a succeeding world the flag is on, no error is
raised and both handles are populated. -/
theorem c8_use_local_model_only_after_full_load_witness :
    (setup_local_model rmNoSource "bert-base" wTokFail).2.1.use_local_model
      = false ∧
    ((setup_local_model rmNoSource "bert-base" wTwo).2.2 = none ∧
     (setup_local_model rmNoSource "bert-base" wTwo).2.1.local_embed_model.isSome = true ∧
     (setup_local_model rmNoSource "bert-base" wTwo).2.1.local_tokenizer.isSome = true) :=
  ⟨(c8_use_local_model_only_after_full_load rmNoSource "bert-base" wTokFail
      rfl).1 (by decide),
   (c8_use_local_model_only_after_full_load rmNoSource "bert-base" wTwo
      rfl).2 (by decide)⟩

/-- Claim C9: a construction that gets past the metadata check with a
truthy API key and no local model writes exactly one effect — the key into
the `OPENAI_API_KEY` environment variable; with a truthy local model the
`elif` is skipped, so construction writes no environment variable at
all. -/
theorem c9_env_written_iff_no_local_model (client : Nat)
    (table database vector_column : String) (k : Nat) (cols : List String)
    (key mdl lem : Option String) (w : World) :
    (cols ≠ [] → pyTruthyStr key = true → pyTruthyStr lem = false →
      (init client table database cols vector_column k key mdl lem w).1 =
        [Effect.setEnv "OPENAI_API_KEY" (key.getD "")]) ∧
    (pyTruthyStr lem = true →
      ∀ (n v : String), Effect.setEnv n v ∉
        (init client table database cols vector_column k key mdl lem w).1) := by
  constructor
  · intro hc hk hl
    simp [init, hc, hk, hl]
  · intro hl n v hmem
    by_cases hc : cols = []
    · simp [init, hc] at hmem
    · simp only [init, if_neg hc, hl, if_true] at hmem
      rcases hr : (setup_local_model
          { client := client, database := database, table := table,
            metadata_columns := cols, vector_column := vector_column,
            k := k, openai_api_key := key, model := mdl,
            use_local_model := false, local_embed_model := none,
            local_tokenizer := none, device := none,
            local_eval_mode := false } (lem.getD "") w).2.2 with _ | e <;>
        simp only [hr] at hmem <;>
        rcases setup_local_model_effects _ _ w _ hmem with h | h <;>
          simp at h

/-- Witness for C9: a concrete construction with an API key and no local
model writes the key into `OPENAI_API_KEY`; supplying a local model name
suppresses the environment write. -/
theorem c9_env_written_iff_no_local_model_witness :
    (init 0 "documents" "default" ["text"] "vector" 3 (some "sk-test")
        (some "text-embedding-3-small") none wTwo).1 =
      [Effect.setEnv "OPENAI_API_KEY" "sk-test"] ∧
    Effect.setEnv "OPENAI_API_KEY" "sk-test" ∉
      (init 0 "documents" "default" ["text"] "vector" 3 (some "sk-test")
        (some "text-embedding-3-small") (some "bert-base") wTwo).1 :=
  ⟨(c9_env_written_iff_no_local_model 0 "documents" "default" "vector" 3
      ["text"] (some "sk-test") (some "text-embedding-3-small") none
      wTwo).1 (by decide) (by decide) (by decide),
   (c9_env_written_iff_no_local_model 0 "documents" "default" "vector" 3
      ["text"] (some "sk-test") (some "text-embedding-3-small")
      (some "bert-base") wTwo).2 (by decide) "OPENAI_API_KEY" "sk-test"⟩

/-- Claim C10: `forward` rejects only `None`: for every string query —
the empty string included — the embedding subsystem is invoked and the
`"Query is required"` error is never the outcome; and whenever an
embedding source is configured, the call with the empty string goes on to
issue the database query. -/
theorem c10_only_none_is_rejected (s : MyScaleRM) (w : World)
    (kArg : Option Nat) :
    (∀ q : String,
      Effect.embedRequest [q] ∈ (forward s w (some q) kArg).1 ∧
      (forward s w (some q) kArg).2.2 ≠
        Except.error (Err.valueError "Query is required")) ∧
    ((pyTruthyStr s.openai_api_key && pyTruthyStr s.model) = true ∨
        s.use_local_model = true →
      ∃ sql, Effect.dbQuery sql ∈ (forward s w (some "") kArg).1) := by
  constructor
  · intro q
    cases hb : (pyTruthyStr s.openai_api_key && pyTruthyStr s.model) <;>
      cases hl : s.use_local_model <;>
        simp [forward, get_embeddings, _get_embeddings,
          _get_embeddings_from_openai, _get_embedding_from_local_model,
          hb, hl]
  · intro hroute
    cases hb : (pyTruthyStr s.openai_api_key && pyTruthyStr s.model) <;>
      cases hl : s.use_local_model
    · rcases hroute with h | h
      · rw [hb] at h
        exact absurd h (by simp)
      · rw [hl] at h
        exact absurd h (by simp)
    all_goals
      simp [forward, get_embeddings, _get_embeddings,
        _get_embeddings_from_openai, _get_embedding_from_local_model,
        hb, hl]

/-- Witness for C10: on a remote-configured adapter the empty-string query
is not rejected — the embedding subsystem is invoked, the "Query is
required" error does not occur, and a database query is issued. -/
theorem c10_only_none_is_rejected_witness :
    (Effect.embedRequest [""] ∈ (forward rmRemote wTwo (some "") none).1 ∧
     (forward rmRemote wTwo (some "") none).2.2 ≠
       Except.error (Err.valueError "Query is required")) ∧
    ∃ sql, Effect.dbQuery sql ∈ (forward rmRemote wTwo (some "") none).1 :=
  ⟨(c10_only_none_is_rejected rmRemote wTwo none).1 "",
   (c10_only_none_is_rejected rmRemote wTwo none).2 (Or.inl (by decide))⟩
